import Mathlib

/-!
Verification of the armor-solver node (`armor_solver_node.cpp`) of the
SPR2025-Vision auto-aim stack.

The node wires an extended Kalman filter into a `Tracker` and, on every
incoming batch of armor detections, transforms the batch into the world
frame, filters abnormal observations, steps the tracker, and publishes a
measurement message, a target snapshot and a gimbal command.

Scalars (C++ `double`) are modelled as real numbers.  The tracker's own
`init`/`update` routines live outside this translation unit; the callback is
therefore modelled as a function parameterized by the init and update
transitions, and facts about those transitions that the node relies on are
taken as hypotheses justified by the specification.
-/

namespace ArmorSolver

/-- An armor pose after the external frame transform: position and yaw. -/
structure Pose where
  x : ℝ
  y : ℝ
  z : ℝ
  yaw : ℝ

/-- One detected armor plate: robot id plus pose (`rm_interfaces::msg::Armor`). -/
structure Armor where
  numericId : String
  pose : Pose

/-- A batch of detections with its header timestamp (`rm_interfaces::msg::Armors`). -/
structure ArmorsMsg where
  stamp : ℝ
  armors : List Armor

/-- The tracker finite-state machine states. -/
inductive TrackerState where
  | LOST
  | DETECTING
  | TRACKING
  | TEMP_LOST
deriving DecidableEq

/-- The tracker fields that the node reads or writes
(`tracker_state`, `target_state`, `tracked_id`, `tracked_armors_num`,
`another_r`, `dz`, `measurement`, `lost_thres`). -/
structure Tracker where
  trackerState : TrackerState
  targetState : Fin 9 → ℝ
  trackedId : String
  trackedArmorsNum : ℤ
  anotherR : ℝ
  dz : ℝ
  measurement : Fin 4 → ℝ
  lostThres : ℤ

/-- The node state mutated by `armorsCallback`: `dt_`, `last_time_` and the
tracker. -/
structure NodeState where
  dt : ℝ
  lastTime : ℝ
  tracker : Tracker

/-- `rm_interfaces::msg::Measurement`: the 4-vector fed to the last EKF update. -/
structure MeasurementMsg where
  x : ℝ
  y : ℝ
  z : ℝ
  yaw : ℝ

/-- `rm_interfaces::msg::Target`: the published target snapshot. -/
structure TargetMsg where
  tracking : Bool
  id : String
  armorsNum : ℤ
  positionX : ℝ
  positionY : ℝ
  positionZ : ℝ
  velocityX : ℝ
  velocityY : ℝ
  velocityZ : ℝ
  yaw : ℝ
  vYaw : ℝ
  radius1 : ℝ
  radius2 : ℝ
  dz : ℝ

/-- A default-constructed (zeroed) target message, as ROS zero-initializes
message fields. -/
def emptyTarget : TargetMsg :=
  ⟨false, "", 0, 0, 0, 0, 0, 0, 0, 0, 0, 0, 0, 0⟩

/-- `rm_interfaces::msg::GimbalCmd`. -/
structure GimbalCmd where
  yawDiff : ℝ
  pitchDiff : ℝ
  distance : ℝ
  fireAdvice : Bool

/-- The neutral gimbal command `(0, 0, -1, false)` written by the node when
not tracking or when the solver throws. -/
def neutralCmd : GimbalCmd :=
  ⟨0, 0, -1, false⟩

/-- Observation function `h` of the EKF (armor pose from robot state):
`z = (xc - r cos yaw, yc - r sin yaw, za, yaw)` with
`xc = x 0`, `yc = x 2`, `za = x 4`, `yaw = x 6`, `r = x 8`. -/
noncomputable def h (x : Fin 9 → ℝ) : Fin 4 → ℝ :=
  ![x 0 - x 8 * Real.cos (x 6),
    x 2 - x 8 * Real.sin (x 6),
    x 4,
    x 6]

/-- Jacobian `j_h` of the observation function, as written in the source. -/
noncomputable def j_h (x : Fin 9 → ℝ) : Matrix (Fin 4) (Fin 9) ℝ :=
  !![1, 0, 0, 0, 0, 0, x 8 * Real.sin (x 6), 0, -Real.cos (x 6);
     0, 0, 1, 0, 0, 0, -x 8 * Real.cos (x 6), 0, -Real.sin (x 6);
     0, 0, 0, 0, 1, 0, 0, 0, 0;
     0, 0, 0, 0, 0, 0, 1, 0, 0]

/-- Process-noise provider `u_q`, translated entry for entry from the source
lambda.  Arguments: `t = dt_`, `x = s2qx_`, `y = s2qy_`, `z = s2qz_`,
`yaw = s2qyaw_`, `r = s2qr_`.  Note the source uses `x` (not `z`) in
`q_z_z` and `q_z_vz`, and `x` (not `yaw`) in `q_yaw_vyaw`. -/
noncomputable def u_q (t x y z yaw r : ℝ) : Matrix (Fin 9) (Fin 9) ℝ :=
  let q_x_x := t^4/4*x
  let q_x_vx := t^3/2*x
  let q_vx_vx := t^2*x
  let q_y_y := t^4/4*y
  let q_y_vy := t^3/2*y
  let q_vy_vy := t^2*y
  let q_z_z := t^4/4*x
  let q_z_vz := t^3/2*x
  let q_vz_vz := t^2*z
  let q_yaw_yaw := t^4/4*yaw
  let q_yaw_vyaw := t^3/2*x
  let q_vyaw_vyaw := t^2*yaw
  let q_r := t^4/4*r
  !![q_x_x,  q_x_vx, 0,      0,      0,      0,      0,          0,           0;
     q_x_vx, q_vx_vx, 0,     0,      0,      0,      0,          0,           0;
     0,      0,      q_y_y,  q_y_vy, 0,      0,      0,          0,           0;
     0,      0,      q_y_vy, q_vy_vy, 0,     0,      0,          0,           0;
     0,      0,      0,      0,      q_z_z,  q_z_vz, 0,          0,           0;
     0,      0,      0,      0,      q_z_vz, q_vz_vz, 0,         0,           0;
     0,      0,      0,      0,      0,      0,      q_yaw_yaw,  q_yaw_vyaw,  0;
     0,      0,      0,      0,      0,      0,      q_yaw_vyaw, q_vyaw_vyaw, 0;
     0,      0,      0,      0,      0,      0,      0,          0,           q_r]

/-- Measurement-noise provider `u_r`: the diagonal matrix with diagonal
`(|r_x z0|, |r_y z1|, |r_z z2|, r_yaw)`. -/
noncomputable def u_r (rx ry rz ryaw : ℝ) (z : Fin 4 → ℝ) : Matrix (Fin 4) (Fin 4) ℝ :=
  Matrix.diagonal ![|rx * z 0|, |ry * z 1|, |rz * z 2|, ryaw]

/-- The per-armor frame transform loop: each armor's pose is looked up in the
tf buffer (modelled by `tf`); a `tf2::TransformException` is modelled by
`none`, and makes the whole callback return. -/
def transformAll (tf : Pose → Option Pose) : List Armor → Option (List Armor)
  | [] => some []
  | a :: rest =>
    match tf a.pose with
    | none => none
    | some p =>
      match transformAll tf rest with
      | none => none
      | some rest' => some ({ a with pose := p } :: rest')

/-- The abnormal-armor filter: `remove_if (abs(armor.pose.position.z) > 2)`. -/
noncomputable def filterAbnormal (l : List Armor) : List Armor :=
  l.filter fun a => !decide (|a.pose.z| > 2)

/-- C++ `static_cast<int>` on a double: truncation toward zero. -/
noncomputable def truncInt (v : ℝ) : ℤ :=
  if 0 ≤ v then ⌊v⌋ else ⌈v⌉

/-- Node configuration read at startup (`tracker.lost_time_thres`). -/
structure Config where
  lostTimeThres : ℝ

/-- The target message built from the tracker after an update step: tracking
is true with the full payload when the tracker is TRACKING or TEMP_LOST,
false with a zeroed payload otherwise. -/
def targetMsgOf (tr : Tracker) : TargetMsg :=
  if tr.trackerState = TrackerState.TRACKING ∨ tr.trackerState = TrackerState.TEMP_LOST then
    { tracking := true
      id := tr.trackedId
      armorsNum := tr.trackedArmorsNum
      positionX := tr.targetState 0
      velocityX := tr.targetState 1
      positionY := tr.targetState 2
      velocityY := tr.targetState 3
      positionZ := tr.targetState 4
      velocityZ := tr.targetState 5
      yaw := tr.targetState 6
      vYaw := tr.targetState 7
      radius1 := tr.targetState 8
      radius2 := tr.anotherR
      dz := tr.dz }
  else
    { emptyTarget with tracking := false }

/-- The gimbal command block: when tracking, call the downstream solver and
fall back to the neutral command if it throws (`none`); when not tracking,
emit the neutral command. -/
def controlMsgOf (solve : TargetMsg → Option GimbalCmd) (t : TargetMsg) : GimbalCmd :=
  if t.tracking then
    match solve t with
    | some c => c
    | none => neutralCmd
  else neutralCmd

/-- Everything observable about one run of the callback: the node state
afterwards, the batch handed to the tracker (`none` when the tick was
dropped before reaching the tracker), and the three published messages
(`none` = not published this tick). -/
structure CallbackResult where
  node : NodeState
  trackerBatch : Option (List Armor)
  measurePub : Option MeasurementMsg
  targetPub : Option TargetMsg
  gimbalPub : Option GimbalCmd

/-- `ArmorSolverNode::armorsCallback`, parameterized by the frame transform
`tf`, the tracker transitions `initF` (state LOST) and `updateF` (otherwise;
first argument is `dt_`), and the downstream solver `solve` (`none` models a
thrown exception). -/
noncomputable def armorsCallback (cfg : Config) (tf : Pose → Option Pose)
    (initF : Tracker → List Armor → Tracker)
    (updateF : ℝ → Tracker → List Armor → Tracker)
    (solve : TargetMsg → Option GimbalCmd)
    (pre : NodeState) (msg : ArmorsMsg) : CallbackResult :=
  match transformAll tf msg.armors with
  | none =>
    { node := pre, trackerBatch := none, measurePub := none,
      targetPub := none, gimbalPub := none }
  | some transformed =>
    let armors := filterAbnormal transformed
    let time := msg.stamp
    if pre.tracker.trackerState = TrackerState.LOST then
      let tracker1 := initF pre.tracker armors
      let targetMsg := { emptyTarget with tracking := false }
      let controlMsg := controlMsgOf solve targetMsg
      { node := { dt := pre.dt, lastTime := time, tracker := tracker1 },
        trackerBatch := some armors,
        measurePub := none,
        targetPub := some targetMsg,
        gimbalPub := some controlMsg }
    else
      let dtv := time - pre.lastTime
      let tracker1 :=
        updateF dtv
          { pre.tracker with lostThres := |truncInt (cfg.lostTimeThres / dtv)| } armors
      let measureMsg : MeasurementMsg :=
        ⟨tracker1.measurement 0, tracker1.measurement 1,
         tracker1.measurement 2, tracker1.measurement 3⟩
      let targetMsg := targetMsgOf tracker1
      let controlMsg := controlMsgOf solve targetMsg
      { node := { dt := dtv, lastTime := time, tracker := tracker1 },
        trackerBatch := some armors,
        measurePub := some measureMsg,
        targetPub := some targetMsg,
        gimbalPub := some controlMsg }

/-- Folding the callback over a stream of frames (only the node state is
threaded from tick to tick). -/
noncomputable def processTicks (cfg : Config) (tf : Pose → Option Pose)
    (initF : Tracker → List Armor → Tracker)
    (updateF : ℝ → Tracker → List Armor → Tracker)
    (solve : TargetMsg → Option GimbalCmd)
    (pre : NodeState) (msgs : List ArmorsMsg) : NodeState :=
  msgs.foldl (fun st m => (armorsCallback cfg tf initF updateF solve st m).node) pre

/-- The stamp of the most recent frame of the stream that survived the
transform stage, with default `d` when none did. -/
def lastSurvivingStamp (tf : Pose → Option Pose) (d : ℝ) : List ArmorsMsg → ℝ
  | [] => d
  | m :: rest =>
    lastSurvivingStamp tf
      (match transformAll tf m.armors with
       | some _ => m.stamp
       | none => d) rest

/-! ### Floating-point model of the abnormal-armor filter

The filter compares `abs(armor.pose.position.z) > 2` on IEEE doubles, where
every comparison involving NaN is false.  To settle whether a non-finite yaw
can pass the filter, the two fields the claim talks about are modelled with
an explicit NaN value; finite values are taken rational so the filter is
decidable. -/

/-- An IEEE double as the filter sees it: a finite value or NaN. -/
inductive FpVal where
  | fin (v : ℚ)
  | nan
deriving DecidableEq

/-- `abs` on the floating-point model (`abs NaN = NaN`). -/
def FpVal.abs : FpVal → FpVal
  | fin v => fin |v|
  | nan => nan

/-- IEEE `>` against a constant: any comparison with NaN is false. -/
def FpVal.gtBool : FpVal → ℚ → Bool
  | fin v, c => decide (v > c)
  | nan, _ => false

/-- Finiteness of a floating-point value. -/
def FpVal.isFinite : FpVal → Bool
  | fin _ => true
  | nan => false

/-- An armor as seen by the abnormal-armor filter: only `z` and `yaw` matter. -/
structure FpArmor where
  z : FpVal
  yaw : FpVal
deriving DecidableEq

/-- The abnormal-armor filter on floating-point armors:
`remove_if (abs(z) > 2)` — the yaw field is never inspected. -/
def filterAbnormalFp (l : List FpArmor) : List FpArmor :=
  l.filter fun a => !(FpVal.gtBool a.z.abs 2)

/-- A detection whose yaw is NaN but whose z is 0. -/
def fpBad : FpArmor :=
  ⟨FpVal.fin 0, FpVal.nan⟩

/-! ### Sample data used by the witnesses -/

/-- A tracker init transition that always accepts into DETECTING
(used to instantiate witnesses). -/
def initSample (tr : Tracker) (_obs : List Armor) : Tracker :=
  { tr with trackerState := TrackerState.DETECTING }

/-- A tracker update transition that leaves the tracker unchanged
(used to instantiate witnesses). -/
def updateSample (_dtv : ℝ) (tr : Tracker) (_obs : List Armor) : Tracker :=
  tr

/-- A tracker update transition that marks the tracker, making the call
observable (used to instantiate witnesses). -/
def updateMark (_dtv : ℝ) (tr : Tracker) (_obs : List Armor) : Tracker :=
  { tr with trackedId := "updated" }

/-- A sample tracker in the TRACKING state. -/
noncomputable def tracker0 : Tracker :=
  ⟨TrackerState.TRACKING, fun _ => 1, "3", 4, 1/4, 0, fun _ => 0, 0⟩

/-- A sample node state with `last_time_ = 0`. -/
noncomputable def node0 : NodeState :=
  ⟨0, 0, tracker0⟩

/-- A sample node state whose frame arrives before `last_time_ = 1`. -/
noncomputable def preC : NodeState :=
  ⟨0, 1, tracker0⟩

/-- A frame at time 1 with no detections. -/
def msg0 : ArmorsMsg :=
  ⟨1, []⟩

/-- A frame at time 0 (not later than `preC.lastTime = 1`). -/
def msgC : ArmorsMsg :=
  ⟨0, []⟩

/-- A sample armor observation with `z = 1/10`. -/
noncomputable def armorA : Armor :=
  ⟨"3", ⟨1, 0, 1/10, 0⟩⟩

/-- A frame at time 1 carrying the sample armor. -/
noncomputable def msgA : ArmorsMsg :=
  ⟨1, [armorA]⟩

/-- The identity frame transform (lookup always succeeds). -/
def tfId : Pose → Option Pose :=
  fun p => some p

/-- A frame transform whose lookup always throws. -/
def tfNone : Pose → Option Pose :=
  fun _ => none

/-- A downstream solver that always throws. -/
def solveNone : TargetMsg → Option GimbalCmd :=
  fun _ => none

/-- A sample configuration (`lost_time_thres = 0.3`). -/
noncomputable def cfg0 : Config :=
  ⟨3/10⟩

/-! ### Helper lemmas about the callback -/

theorem transformAll_eq_none {tf : Pose → Option Pose} {l : List Armor} {a : Armor}
    (ha : a ∈ l) (hfail : tf a.pose = none) : transformAll tf l = none := by
  induction l with
  | nil => cases ha
  | cons b rest ih =>
    rcases List.mem_cons.mp ha with rfl | hmem
    · simp [transformAll, hfail]
    · cases hb : tf b.pose with
      | none => simp [transformAll, hb]
      | some p => simp [transformAll, hb, ih hmem]

theorem mem_filterAbnormal {l : List Armor} {a : Armor}
    (ha : a ∈ filterAbnormal l) : |a.pose.z| ≤ 2 := by
  unfold filterAbnormal at ha
  have hp := List.of_mem_filter ha
  simp only [Bool.not_eq_true', decide_eq_false_iff_not] at hp
  exact not_lt.mp hp

theorem armorsCallback_none {cfg : Config} {tf : Pose → Option Pose}
    {initF : Tracker → List Armor → Tracker}
    {updateF : ℝ → Tracker → List Armor → Tracker}
    {solve : TargetMsg → Option GimbalCmd} {pre : NodeState} {msg : ArmorsMsg}
    (hT : transformAll tf msg.armors = none) :
    armorsCallback cfg tf initF updateF solve pre msg =
      ⟨pre, none, none, none, none⟩ := by
  unfold armorsCallback
  rw [hT]

theorem armorsCallback_lost {cfg : Config} {tf : Pose → Option Pose}
    {initF : Tracker → List Armor → Tracker}
    {updateF : ℝ → Tracker → List Armor → Tracker}
    {solve : TargetMsg → Option GimbalCmd} {pre : NodeState} {msg : ArmorsMsg}
    {l : List Armor}
    (hT : transformAll tf msg.armors = some l)
    (hs : pre.tracker.trackerState = TrackerState.LOST) :
    armorsCallback cfg tf initF updateF solve pre msg =
      ⟨⟨pre.dt, msg.stamp, initF pre.tracker (filterAbnormal l)⟩,
       some (filterAbnormal l), none,
       some { emptyTarget with tracking := false },
       some (controlMsgOf solve { emptyTarget with tracking := false })⟩ := by
  simp only [armorsCallback, hT]
  rw [if_pos hs]

theorem armorsCallback_active {cfg : Config} {tf : Pose → Option Pose}
    {initF : Tracker → List Armor → Tracker}
    {updateF : ℝ → Tracker → List Armor → Tracker}
    {solve : TargetMsg → Option GimbalCmd} {pre : NodeState} {msg : ArmorsMsg}
    {l : List Armor}
    (hT : transformAll tf msg.armors = some l)
    (hs : ¬ pre.tracker.trackerState = TrackerState.LOST) :
    armorsCallback cfg tf initF updateF solve pre msg =
      ⟨⟨msg.stamp - pre.lastTime, msg.stamp,
        updateF (msg.stamp - pre.lastTime)
          { pre.tracker with
              lostThres := |truncInt (cfg.lostTimeThres / (msg.stamp - pre.lastTime))| }
          (filterAbnormal l)⟩,
       some (filterAbnormal l),
       some ⟨(updateF (msg.stamp - pre.lastTime)
                { pre.tracker with
                    lostThres := |truncInt (cfg.lostTimeThres / (msg.stamp - pre.lastTime))| }
                (filterAbnormal l)).measurement 0,
             (updateF (msg.stamp - pre.lastTime)
                { pre.tracker with
                    lostThres := |truncInt (cfg.lostTimeThres / (msg.stamp - pre.lastTime))| }
                (filterAbnormal l)).measurement 1,
             (updateF (msg.stamp - pre.lastTime)
                { pre.tracker with
                    lostThres := |truncInt (cfg.lostTimeThres / (msg.stamp - pre.lastTime))| }
                (filterAbnormal l)).measurement 2,
             (updateF (msg.stamp - pre.lastTime)
                { pre.tracker with
                    lostThres := |truncInt (cfg.lostTimeThres / (msg.stamp - pre.lastTime))| }
                (filterAbnormal l)).measurement 3⟩,
       some (targetMsgOf (updateF (msg.stamp - pre.lastTime)
                { pre.tracker with
                    lostThres := |truncInt (cfg.lostTimeThres / (msg.stamp - pre.lastTime))| }
                (filterAbnormal l))),
       some (controlMsgOf solve (targetMsgOf (updateF (msg.stamp - pre.lastTime)
                { pre.tracker with
                    lostThres := |truncInt (cfg.lostTimeThres / (msg.stamp - pre.lastTime))| }
                (filterAbnormal l))))⟩ := by
  simp only [armorsCallback, hT]
  rw [if_neg hs]

/-! ### Claim C1 -/

/-- Claim C1 (refuted; the code is the slip): the claim says every `(p, v)`
pair of the process-noise matrix uses that axis's own spectral density.
Evaluating `u_q` at `dt = 1`, `σ²qx = 1`, `σ²qy = 1`, `σ²qz = 5`,
`σ²qyaw = 3`, `σ²qr = 7`: the entries `q_z_z` (4,4), `q_z_vz` (4,5) and
`q_yaw_vyaw` (6,7) are computed from `σ²qx = 1`, and differ from the
per-axis values `dt⁴/4·σ²qz`, `dt³/2·σ²qz`, `dt³/2·σ²qyaw` the claim
prescribes. -/
theorem u_q_mixed_densities :
    u_q 1 1 1 5 3 7 4 4 = 1/4 ∧ u_q 1 1 1 5 3 7 4 5 = 1/2 ∧
    u_q 1 1 1 5 3 7 6 7 = 1/2 ∧
    u_q 1 1 1 5 3 7 4 4 ≠ (1:ℝ)^4/4*5 ∧
    u_q 1 1 1 5 3 7 4 5 ≠ (1:ℝ)^3/2*5 ∧
    u_q 1 1 1 5 3 7 6 7 ≠ (1:ℝ)^3/2*3 := by
  have e44 : u_q 1 1 1 5 3 7 4 4 = (1:ℝ)^4/4*1 := rfl
  have e45 : u_q 1 1 1 5 3 7 4 5 = (1:ℝ)^3/2*1 := rfl
  have e67 : u_q 1 1 1 5 3 7 6 7 = (1:ℝ)^3/2*1 := rfl
  rw [e44, e45, e67]
  norm_num

/-! ### Claim C2 -/

/-- Claim C2: for every state `x` with `xc = x 0`, `yc = x 2`, `za = x 4`,
`yaw = x 6`, `r = x 8`, the observation function returns
`(xc − r·cos yaw, yc − r·sin yaw, za, yaw)`, and `j_h x` is the analytic
Jacobian of those four equations: its `(i, j)` entry is the derivative of
the `i`-th observation component in the `j`-th state component. -/
theorem h_j_h_observation_jacobian (x : Fin 9 → ℝ) :
    (h x 0 = x 0 - x 8 * Real.cos (x 6) ∧
     h x 1 = x 2 - x 8 * Real.sin (x 6) ∧
     h x 2 = x 4 ∧ h x 3 = x 6) ∧
    ∀ (i : Fin 4) (j : Fin 9),
      HasDerivAt (fun s => h (Function.update x j s) i) (j_h x i j) (x j) := by
  refine ⟨⟨rfl, rfl, rfl, rfl⟩, ?_⟩
  have d00 : HasDerivAt (fun s : ℝ => s - x 8 * Real.cos (x 6)) 1 (x 0) :=
    (hasDerivAt_id _).sub_const _
  have d06 : HasDerivAt (fun s => x 0 - x 8 * Real.cos s) (x 8 * Real.sin (x 6)) (x 6) :=
    (((Real.hasDerivAt_cos (x 6)).const_mul (x 8)).const_sub (x 0)).congr_deriv (by ring)
  have d08 : HasDerivAt (fun s => x 0 - s * Real.cos (x 6)) (-Real.cos (x 6)) (x 8) :=
    (((hasDerivAt_id (x 8)).mul_const (Real.cos (x 6))).const_sub (x 0)).congr_deriv (by ring)
  have d12 : HasDerivAt (fun s : ℝ => s - x 8 * Real.sin (x 6)) 1 (x 2) :=
    (hasDerivAt_id _).sub_const _
  have d16 : HasDerivAt (fun s => x 2 - x 8 * Real.sin s) (-x 8 * Real.cos (x 6)) (x 6) :=
    (((Real.hasDerivAt_sin (x 6)).const_mul (x 8)).const_sub (x 2)).congr_deriv (by ring)
  have d18 : HasDerivAt (fun s => x 2 - s * Real.sin (x 6)) (-Real.sin (x 6)) (x 8) :=
    (((hasDerivAt_id (x 8)).mul_const (Real.sin (x 6))).const_sub (x 2)).congr_deriv (by ring)
  have d24 : HasDerivAt (fun s : ℝ => s) 1 (x 4) := hasDerivAt_id _
  have d36 : HasDerivAt (fun s : ℝ => s) 1 (x 6) := hasDerivAt_id _
  intro i j
  exact match i, j with
    | 0, 0 => d00
    | 0, 1 => hasDerivAt_const (x 1) (x 0 - x 8 * Real.cos (x 6))
    | 0, 2 => hasDerivAt_const (x 2) (x 0 - x 8 * Real.cos (x 6))
    | 0, 3 => hasDerivAt_const (x 3) (x 0 - x 8 * Real.cos (x 6))
    | 0, 4 => hasDerivAt_const (x 4) (x 0 - x 8 * Real.cos (x 6))
    | 0, 5 => hasDerivAt_const (x 5) (x 0 - x 8 * Real.cos (x 6))
    | 0, 6 => d06
    | 0, 7 => hasDerivAt_const (x 7) (x 0 - x 8 * Real.cos (x 6))
    | 0, 8 => d08
    | 1, 0 => hasDerivAt_const (x 0) (x 2 - x 8 * Real.sin (x 6))
    | 1, 1 => hasDerivAt_const (x 1) (x 2 - x 8 * Real.sin (x 6))
    | 1, 2 => d12
    | 1, 3 => hasDerivAt_const (x 3) (x 2 - x 8 * Real.sin (x 6))
    | 1, 4 => hasDerivAt_const (x 4) (x 2 - x 8 * Real.sin (x 6))
    | 1, 5 => hasDerivAt_const (x 5) (x 2 - x 8 * Real.sin (x 6))
    | 1, 6 => d16
    | 1, 7 => hasDerivAt_const (x 7) (x 2 - x 8 * Real.sin (x 6))
    | 1, 8 => d18
    | 2, 0 => hasDerivAt_const (x 0) (x 4)
    | 2, 1 => hasDerivAt_const (x 1) (x 4)
    | 2, 2 => hasDerivAt_const (x 2) (x 4)
    | 2, 3 => hasDerivAt_const (x 3) (x 4)
    | 2, 4 => d24
    | 2, 5 => hasDerivAt_const (x 5) (x 4)
    | 2, 6 => hasDerivAt_const (x 6) (x 4)
    | 2, 7 => hasDerivAt_const (x 7) (x 4)
    | 2, 8 => hasDerivAt_const (x 8) (x 4)
    | 3, 0 => hasDerivAt_const (x 0) (x 6)
    | 3, 1 => hasDerivAt_const (x 1) (x 6)
    | 3, 2 => hasDerivAt_const (x 2) (x 6)
    | 3, 3 => hasDerivAt_const (x 3) (x 6)
    | 3, 4 => hasDerivAt_const (x 4) (x 6)
    | 3, 5 => hasDerivAt_const (x 5) (x 6)
    | 3, 6 => d36
    | 3, 7 => hasDerivAt_const (x 7) (x 6)
    | 3, 8 => hasDerivAt_const (x 8) (x 6)

/-! ### Claim C3 -/

/-- Claim C3: on every processed tick, the published target snapshot has
`tracking = true` iff the tracker state after the step is TRACKING or
TEMP_LOST, in which case it carries the stepped tracker's `tracked_id`,
`tracked_armors_num`, state components, `another_r` and `dz`; otherwise
`tracking = false` and every payload field is zero.  The hypothesis on
`initF` is the specification's contract that `init` leaves the tracker in
LOST or DETECTING. -/
theorem target_snapshot_tracking_iff (cfg : Config) (tf : Pose → Option Pose)
    (initF : Tracker → List Armor → Tracker)
    (updateF : ℝ → Tracker → List Armor → Tracker)
    (solve : TargetMsg → Option GimbalCmd) (pre : NodeState) (msg : ArmorsMsg)
    (l : List Armor) (r : CallbackResult)
    (hInit : ∀ tr obs, (initF tr obs).trackerState = TrackerState.LOST ∨
      (initF tr obs).trackerState = TrackerState.DETECTING)
    (hT : transformAll tf msg.armors = some l)
    (hr : armorsCallback cfg tf initF updateF solve pre msg = r) :
    ∃ t : TargetMsg, r.targetPub = some t ∧
      (t.tracking = true ↔
        (r.node.tracker.trackerState = TrackerState.TRACKING ∨
         r.node.tracker.trackerState = TrackerState.TEMP_LOST)) ∧
      (t.tracking = true →
        t.id = r.node.tracker.trackedId ∧
        t.armorsNum = r.node.tracker.trackedArmorsNum ∧
        t.positionX = r.node.tracker.targetState 0 ∧
        t.velocityX = r.node.tracker.targetState 1 ∧
        t.positionY = r.node.tracker.targetState 2 ∧
        t.velocityY = r.node.tracker.targetState 3 ∧
        t.positionZ = r.node.tracker.targetState 4 ∧
        t.velocityZ = r.node.tracker.targetState 5 ∧
        t.yaw = r.node.tracker.targetState 6 ∧
        t.vYaw = r.node.tracker.targetState 7 ∧
        t.radius1 = r.node.tracker.targetState 8 ∧
        t.radius2 = r.node.tracker.anotherR ∧
        t.dz = r.node.tracker.dz) ∧
      (t.tracking = false → t = emptyTarget) := by
  by_cases hs : pre.tracker.trackerState = TrackerState.LOST
  · rw [armorsCallback_lost hT hs] at hr
    subst hr
    refine ⟨{ emptyTarget with tracking := false }, rfl, ?_, ?_, fun _ => rfl⟩
    · constructor
      · intro hfalse
        exact absurd hfalse (by simp [emptyTarget])
      · intro hpost
        rcases hInit pre.tracker (filterAbnormal l) with h1 | h1 <;>
          rcases hpost with h2 | h2 <;> rw [h1] at h2 <;> cases h2
    · intro hfalse
      exact absurd hfalse (by simp [emptyTarget])
  · rw [armorsCallback_active hT hs] at hr
    subst hr
    by_cases htr :
        (updateF (msg.stamp - pre.lastTime)
          { pre.tracker with
              lostThres := |truncInt (cfg.lostTimeThres / (msg.stamp - pre.lastTime))| }
          (filterAbnormal l)).trackerState = TrackerState.TRACKING ∨
        (updateF (msg.stamp - pre.lastTime)
          { pre.tracker with
              lostThres := |truncInt (cfg.lostTimeThres / (msg.stamp - pre.lastTime))| }
          (filterAbnormal l)).trackerState = TrackerState.TEMP_LOST
    · refine ⟨_, rfl, ?_, ?_, ?_⟩
      · unfold targetMsgOf
        rw [if_pos htr]
        exact ⟨fun _ => htr, fun _ => rfl⟩
      · intro _
        unfold targetMsgOf
        rw [if_pos htr]
        exact ⟨rfl, rfl, rfl, rfl, rfl, rfl, rfl, rfl, rfl, rfl, rfl, rfl, rfl⟩
      · intro hfalse
        unfold targetMsgOf at hfalse
        rw [if_pos htr] at hfalse
        simp at hfalse
    · refine ⟨_, rfl, ?_, ?_, ?_⟩
      · unfold targetMsgOf
        rw [if_neg htr]
        constructor
        · intro hfalse
          exact absurd hfalse (by simp [emptyTarget])
        · intro hpost
          exact absurd hpost htr
      · intro htrue
        unfold targetMsgOf at htrue
        rw [if_neg htr] at htrue
        exact absurd htrue (by simp [emptyTarget])
      · intro _
        unfold targetMsgOf
        rw [if_neg htr]
        rfl

/-- Witness for the C3 theorem at a concrete tick: identity transform, empty
frame, TRACKING tracker, sample init and update transitions. -/
theorem target_snapshot_tracking_iff_witness :
    ∃ t : TargetMsg,
      (armorsCallback cfg0 tfId initSample updateSample solveNone node0 msg0).targetPub
        = some t := by
  obtain ⟨t, ht, -, -, -⟩ :=
    target_snapshot_tracking_iff cfg0 tfId initSample updateSample solveNone node0 msg0
      [] (armorsCallback cfg0 tfId initSample updateSample solveNone node0 msg0)
      (fun _ _ => Or.inr rfl) rfl rfl
  exact ⟨t, ht⟩

/-! ### Claim C4 -/

/-- Claim C4: if the frame transform throws for any armor of the batch, the
whole tick is dropped: the callback leaves the node state (tracker, filter,
counters, `last_time_`) untouched and publishes nothing, independently of
the tracker transitions and the solver (which are therefore never invoked). -/
theorem transform_failure_drops_tick (cfg : Config) (tf : Pose → Option Pose)
    (initF : Tracker → List Armor → Tracker)
    (updateF : ℝ → Tracker → List Armor → Tracker)
    (solve : TargetMsg → Option GimbalCmd) (pre : NodeState) (msg : ArmorsMsg)
    (hex : ∃ a ∈ msg.armors, tf a.pose = none) :
    armorsCallback cfg tf initF updateF solve pre msg =
      ⟨pre, none, none, none, none⟩ := by
  obtain ⟨a, ha, hfail⟩ := hex
  exact armorsCallback_none (transformAll_eq_none ha hfail)

/-- Witness for the C4 theorem: a transform that always throws, on a
one-armor frame. -/
theorem transform_failure_drops_tick_witness :
    armorsCallback cfg0 tfNone initSample updateSample solveNone node0 msgA =
      ⟨node0, none, none, none, none⟩ :=
  transform_failure_drops_tick cfg0 tfNone initSample updateSample solveNone node0 msgA
    ⟨armorA, List.mem_singleton.mpr rfl, rfl⟩

/-! ### Claim C5 -/

/-- Claim C5 counterexample: the abnormal-armor filter checks only
`abs(z) > 2`; under IEEE comparison an armor whose yaw is NaN (not finite)
passes the filter untouched and thus reaches the tracker, contradicting the
claim that observations with non-finite yaw are removed from the batch. -/
theorem nan_yaw_passes_filter :
    filterAbnormalFp [fpBad] = [fpBad] ∧ fpBad.yaw.isFinite = false := by
  exact ⟨rfl, rfl⟩

/-- Claim C5 (amended): every observation handed to the tracker (via init
or update) satisfies `|z| ≤ 2`; armors with `|z| > 2` are removed before the
tracker sees them.  (No yaw-finiteness check is performed by the code.) -/
theorem tracker_batch_z_bounded (cfg : Config) (tf : Pose → Option Pose)
    (initF : Tracker → List Armor → Tracker)
    (updateF : ℝ → Tracker → List Armor → Tracker)
    (solve : TargetMsg → Option GimbalCmd) (pre : NodeState) (msg : ArmorsMsg)
    (B : List Armor) (a : Armor)
    (hB : (armorsCallback cfg tf initF updateF solve pre msg).trackerBatch = some B)
    (ha : a ∈ B) : |a.pose.z| ≤ 2 := by
  cases hT : transformAll tf msg.armors with
  | none =>
    rw [armorsCallback_none hT] at hB
    cases hB
  | some l =>
    by_cases hs : pre.tracker.trackerState = TrackerState.LOST
    · rw [armorsCallback_lost hT hs] at hB
      have hBe : filterAbnormal l = B := Option.some.inj hB
      exact mem_filterAbnormal (by rw [hBe]; exact ha)
    · rw [armorsCallback_active hT hs] at hB
      have hBe : filterAbnormal l = B := Option.some.inj hB
      exact mem_filterAbnormal (by rw [hBe]; exact ha)

/-- Witness for the amended C5 theorem: the sample armor with `z = 1/10`
survives the filter and reaches the tracker. -/
theorem tracker_batch_z_bounded_witness : |armorA.pose.z| ≤ 2 := by
  have hne : ¬ node0.tracker.trackerState = TrackerState.LOST := by decide
  have hone : filterAbnormal [armorA] = [armorA] := by
    have hz : ¬ (|armorA.pose.z| > 2) := by
      have hv : armorA.pose.z = 1/10 := rfl
      rw [hv, abs_of_nonneg (by norm_num : (0:ℝ) ≤ 1/10)]
      norm_num
    simp [filterAbnormal, List.filter_cons, hz]
  apply tracker_batch_z_bounded cfg0 tfId initSample updateSample solveNone node0 msgA
    [armorA] armorA ?_ (List.mem_singleton.mpr rfl)
  rw [armorsCallback_active (show transformAll tfId msgA.armors = some [armorA] from rfl) hne]
  show some (filterAbnormal [armorA]) = some [armorA]
  rw [hone]

/-! ### Claim C6 -/

/-- Claim C6 counterexample: a non-LOST tick whose stamp (0) is not later
than the previous processed frame's stamp (1), i.e. `dt = -1 ≤ 0`, is NOT
dropped: the tracker update runs (it marks the tracker) and the
measurement, target and gimbal messages are all published. -/
theorem dt_nonpositive_tick_not_dropped :
    msgC.stamp ≤ preC.lastTime ∧
    (armorsCallback cfg0 tfId initSample updateMark solveNone preC msgC).node.tracker.trackedId
      = "updated" ∧
    (armorsCallback cfg0 tfId initSample updateMark solveNone preC msgC).measurePub.isSome
      = true ∧
    (armorsCallback cfg0 tfId initSample updateMark solveNone preC msgC).targetPub.isSome
      = true ∧
    (armorsCallback cfg0 tfId initSample updateMark solveNone preC msgC).gimbalPub.isSome
      = true := by
  refine ⟨?_, rfl, rfl, rfl, rfl⟩
  show (0:ℝ) ≤ 1
  norm_num

/-- Claim C6 (amended): the callback performs no `dt ≤ 0` check.  Every
non-LOST tick that survives the transform stage is processed regardless of
the timestamp order: the tracker update runs with `dt = stamp − last_time_`
and the measurement, target and gimbal messages are all published. -/
theorem non_lost_tick_always_processed (cfg : Config) (tf : Pose → Option Pose)
    (initF : Tracker → List Armor → Tracker)
    (updateF : ℝ → Tracker → List Armor → Tracker)
    (solve : TargetMsg → Option GimbalCmd) (pre : NodeState) (msg : ArmorsMsg)
    (l : List Armor)
    (hs : ¬ pre.tracker.trackerState = TrackerState.LOST)
    (hT : transformAll tf msg.armors = some l) :
    (armorsCallback cfg tf initF updateF solve pre msg).node.tracker =
      updateF (msg.stamp - pre.lastTime)
        { pre.tracker with
            lostThres := |truncInt (cfg.lostTimeThres / (msg.stamp - pre.lastTime))| }
        (filterAbnormal l) ∧
    (armorsCallback cfg tf initF updateF solve pre msg).node.dt
      = msg.stamp - pre.lastTime ∧
    (armorsCallback cfg tf initF updateF solve pre msg).measurePub.isSome = true ∧
    (armorsCallback cfg tf initF updateF solve pre msg).targetPub.isSome = true ∧
    (armorsCallback cfg tf initF updateF solve pre msg).gimbalPub.isSome = true := by
  rw [armorsCallback_active hT hs]
  exact ⟨rfl, rfl, rfl, rfl, rfl⟩

/-- Witness for the amended C6 theorem at the concrete `dt = -1` tick. -/
theorem non_lost_tick_always_processed_witness :
    (armorsCallback cfg0 tfId initSample updateMark solveNone preC msgC).node.dt =
      msgC.stamp - preC.lastTime :=
  (non_lost_tick_always_processed cfg0 tfId initSample updateMark solveNone preC msgC []
    (by decide) rfl).2.1

/-! ### Claim C7 -/

theorem controlMsgOf_not_tracking {solve : TargetMsg → Option GimbalCmd} {t : TargetMsg}
    (hfalse : t.tracking = false) : controlMsgOf solve t = neutralCmd := by
  simp [controlMsgOf, hfalse]

theorem controlMsgOf_solver_throw {solve : TargetMsg → Option GimbalCmd} {t : TargetMsg}
    (hsol : solve t = none) : controlMsgOf solve t = neutralCmd := by
  unfold controlMsgOf
  rw [hsol]
  split <;> rfl

/-- Claim C7: on every processed tick exactly one gimbal command is
published; it is the solver's output wrapped by the neutral-fallback logic,
so a non-tracking snapshot or a solver exception (`none`) yields the
neutral command `(0, 0, -1, false)`; and the callback completes the tick
(`last_time_` is still assigned) rather than aborting. -/
theorem gimbal_cmd_every_processed_tick (cfg : Config) (tf : Pose → Option Pose)
    (initF : Tracker → List Armor → Tracker)
    (updateF : ℝ → Tracker → List Armor → Tracker)
    (solve : TargetMsg → Option GimbalCmd) (pre : NodeState) (msg : ArmorsMsg)
    (l : List Armor)
    (hT : transformAll tf msg.armors = some l) :
    ∃ t : TargetMsg,
      (armorsCallback cfg tf initF updateF solve pre msg).targetPub = some t ∧
      (armorsCallback cfg tf initF updateF solve pre msg).gimbalPub
        = some (controlMsgOf solve t) ∧
      (t.tracking = false → controlMsgOf solve t = neutralCmd) ∧
      (solve t = none → controlMsgOf solve t = neutralCmd) ∧
      (armorsCallback cfg tf initF updateF solve pre msg).node.lastTime = msg.stamp := by
  by_cases hs : pre.tracker.trackerState = TrackerState.LOST
  · rw [armorsCallback_lost hT hs]
    exact ⟨_, rfl, rfl, fun _ => controlMsgOf_not_tracking rfl,
      fun hsol => controlMsgOf_solver_throw hsol, rfl⟩
  · rw [armorsCallback_active hT hs]
    exact ⟨_, rfl, rfl, fun hfalse => controlMsgOf_not_tracking hfalse,
      fun hsol => controlMsgOf_solver_throw hsol, rfl⟩

/-- Witness for the C7 theorem: concrete processed tick with an
always-throwing solver. -/
theorem gimbal_cmd_every_processed_tick_witness :
    ∃ t : TargetMsg,
      (armorsCallback cfg0 tfId initSample updateSample solveNone node0 msg0).targetPub
        = some t := by
  obtain ⟨t, ht, -, -, -, -⟩ :=
    gimbal_cmd_every_processed_tick cfg0 tfId initSample updateSample solveNone node0 msg0
      [] rfl
  exact ⟨t, ht⟩

/-! ### Claim C8 -/

/-- Claim C8: for every measurement `z`, `u_r` returns the diagonal matrix
`diag(|r_x z0|, |r_y z1|, |r_z z2|, r_yaw)`: the x, y, z entries scale with
the matching measurement component, the yaw entry is the constant `r_yaw`
independent of the measurement, and all off-diagonal entries are zero. -/
theorem measurement_noise_diag (rx ry rz ryaw : ℝ) (z : Fin 4 → ℝ) :
    u_r rx ry rz ryaw z 0 0 = |rx * z 0| ∧
    u_r rx ry rz ryaw z 1 1 = |ry * z 1| ∧
    u_r rx ry rz ryaw z 2 2 = |rz * z 2| ∧
    (∀ w : Fin 4 → ℝ, u_r rx ry rz ryaw w 3 3 = ryaw) ∧
    (∀ i j : Fin 4, i ≠ j → u_r rx ry rz ryaw z i j = 0) :=
  ⟨Matrix.diagonal_apply_eq _ _, Matrix.diagonal_apply_eq _ _,
   Matrix.diagonal_apply_eq _ _, fun _ => Matrix.diagonal_apply_eq _ _,
   fun _ _ hij => Matrix.diagonal_apply_ne _ hij⟩

/-- Witness for the C8 theorem: a concrete off-diagonal entry is zero. -/
theorem measurement_noise_diag_witness :
    u_r 1 1 1 (1/50) (fun _ => 1) 0 1 = 0 :=
  (measurement_noise_diag 1 1 1 (1/50) (fun _ => 1)).2.2.2.2 0 1 (by decide)

/-! ### Claim C9 -/

/-- Claim C9: on every processed tick, the measurement message is published
iff the tracker was not LOST at the start of the tick, and its fields are
the stepped tracker's stored measurement 4-vector (the vector fed to the
most recent EKF update). -/
theorem measurement_pub_iff_not_lost (cfg : Config) (tf : Pose → Option Pose)
    (initF : Tracker → List Armor → Tracker)
    (updateF : ℝ → Tracker → List Armor → Tracker)
    (solve : TargetMsg → Option GimbalCmd) (pre : NodeState) (msg : ArmorsMsg)
    (l : List Armor)
    (hT : transformAll tf msg.armors = some l) :
    ((armorsCallback cfg tf initF updateF solve pre msg).measurePub.isSome = true ↔
      ¬ pre.tracker.trackerState = TrackerState.LOST) ∧
    (∀ m, (armorsCallback cfg tf initF updateF solve pre msg).measurePub = some m →
      m.x = (armorsCallback cfg tf initF updateF solve pre msg).node.tracker.measurement 0 ∧
      m.y = (armorsCallback cfg tf initF updateF solve pre msg).node.tracker.measurement 1 ∧
      m.z = (armorsCallback cfg tf initF updateF solve pre msg).node.tracker.measurement 2 ∧
      m.yaw = (armorsCallback cfg tf initF updateF solve pre msg).node.tracker.measurement 3)
      := by
  by_cases hs : pre.tracker.trackerState = TrackerState.LOST
  · rw [armorsCallback_lost hT hs]
    refine ⟨⟨fun hfalse => ?_, fun hn => absurd hs hn⟩, fun m hm => Option.noConfusion hm⟩
    exact absurd hfalse (by simp)
  · rw [armorsCallback_active hT hs]
    refine ⟨⟨fun _ => hs, fun _ => rfl⟩, fun m hm => ?_⟩
    obtain rfl := Option.some.inj hm
    exact ⟨rfl, rfl, rfl, rfl⟩

/-- Witness for the C9 theorem: on a concrete non-LOST tick the measurement
message is published. -/
theorem measurement_pub_iff_not_lost_witness :
    (armorsCallback cfg0 tfId initSample updateSample solveNone node0 msg0).measurePub.isSome
      = true :=
  (measurement_pub_iff_not_lost cfg0 tfId initSample updateSample solveNone node0 msg0
    [] rfl).1.mpr (by decide)

/-! ### Claim C10 -/

/-- Claim C10: `last_time_` is set to the frame stamp at the end of every
tick that survives the transform stage regardless of tracker state, and is
untouched (with the whole node state) on ticks dropped by the transform;
the `dt` used by a non-LOST tick is the stamp difference to `last_time_`;
and over any stream of frames, the final `last_time_` is the stamp of the
most recent frame that survived the transform stage. -/
theorem last_time_discipline (cfg : Config) (tf : Pose → Option Pose)
    (initF : Tracker → List Armor → Tracker)
    (updateF : ℝ → Tracker → List Armor → Tracker)
    (solve : TargetMsg → Option GimbalCmd) :
    (∀ pre msg l, transformAll tf msg.armors = some l →
      (armorsCallback cfg tf initF updateF solve pre msg).node.lastTime = msg.stamp) ∧
    (∀ pre msg, transformAll tf msg.armors = none →
      (armorsCallback cfg tf initF updateF solve pre msg).node = pre) ∧
    (∀ pre msg l, ¬ pre.tracker.trackerState = TrackerState.LOST →
      transformAll tf msg.armors = some l →
      (armorsCallback cfg tf initF updateF solve pre msg).node.dt
        = msg.stamp - pre.lastTime) ∧
    (∀ pre msgs, (processTicks cfg tf initF updateF solve pre msgs).lastTime =
      lastSurvivingStamp tf pre.lastTime msgs) := by
  refine ⟨?_, ?_, ?_, ?_⟩
  · intro pre msg l hT
    by_cases hs : pre.tracker.trackerState = TrackerState.LOST
    · rw [armorsCallback_lost hT hs]
    · rw [armorsCallback_active hT hs]
  · intro pre msg hT
    rw [armorsCallback_none hT]
  · intro pre msg l hs hT
    rw [armorsCallback_active hT hs]
  · intro pre msgs
    induction msgs generalizing pre with
    | nil => rfl
    | cons m rest ih =>
      have step : processTicks cfg tf initF updateF solve pre (m :: rest) =
          processTicks cfg tf initF updateF solve
            ((armorsCallback cfg tf initF updateF solve pre m).node) rest := rfl
      have step2 : lastSurvivingStamp tf pre.lastTime (m :: rest) =
          lastSurvivingStamp tf
            (match transformAll tf m.armors with
             | some _ => m.stamp
             | none => pre.lastTime) rest := rfl
      have harg : (armorsCallback cfg tf initF updateF solve pre m).node.lastTime =
          (match transformAll tf m.armors with
           | some _ => m.stamp
           | none => pre.lastTime) := by
        cases hT : transformAll tf m.armors with
        | none => rw [armorsCallback_none hT]
        | some l =>
          by_cases hs : pre.tracker.trackerState = TrackerState.LOST
          · rw [armorsCallback_lost hT hs]
          · rw [armorsCallback_active hT hs]
      rw [step, ih, harg, step2]

/-- Witness for the C10 theorem: a surviving tick stores its stamp into
`last_time_`. -/
theorem last_time_discipline_witness :
    (armorsCallback cfg0 tfId initSample updateSample solveNone node0 msg0).node.lastTime
      = msg0.stamp :=
  (last_time_discipline cfg0 tfId initSample updateSample solveNone).1 node0 msg0 [] rfl

end ArmorSolver
